import Mathlib

/-!
Shallow embedding of the Helius webhook-management client
(`src/index.ts`, class `Helius`).

Each of the six operations is embedded as a pure function that takes an
abstract HTTP transport (standing for `axios`) and returns the operation's
outcome (`Except String α`, where the `String` is the thrown `Error`'s
message) together with the ordered list of HTTP calls the operation issued.
Thrown JavaScript values are modelled by `JsError`; the `catch` block of
every operation is `catchWrap`.
-/

namespace Helius

/-- Modelled from the spec: the `Webhook` record from `src/types.ts`, a file
imported by `src/index.ts` but not present under `src/`.  Fields follow
section 3 of the spec: unique identifier, delivery URL, webhook type,
transaction-type filter, ordered account-address list, optional
authentication header value, and account-address-related configuration. -/
structure Webhook where
  webhookID : String
  webhookURL : String
  webhookType : String
  transactionTypes : List String
  accountAddresses : List String
  authHeader : Option String
  addressConfig : String
deriving DecidableEq, Repr

/-- Modelled from the spec: `CreateWebhookRequest` from the missing
`src/types.ts` — a partial `Webhook` without the server-assigned
identifier. -/
structure CreateWebhookRequest where
  webhookURL : String
  webhookType : String
  transactionTypes : List String
  accountAddresses : List String
  authHeader : Option String
  addressConfig : String
deriving DecidableEq, Repr

/-- Modelled from the spec: `EditWebhookRequest` from the missing
`src/types.ts` — a partial `Webhook` holding only the fields the caller
wants to change; `none` means the field is absent from the request. -/
structure EditWebhookRequest where
  webhookURL : Option String
  webhookType : Option String
  transactionTypes : Option (List String)
  accountAddresses : Option (List String)
  authHeader : Option (Option String)
  addressConfig : Option String
deriving DecidableEq, Repr

/-- A thrown JavaScript value, as the `catch (err)` blocks of `index.ts`
distinguish them: an axios error (for which `axios.isAxiosError(err)` is
true) carrying the optional structured payload text `err.response?.data.error`
(absent when the server sent no response or no `error` field) together with
the error's own string description `desc` (never read by the client's catch
blocks), or a plain `Error` object with a message (for which string
conversion yields `"Error: " ++ msg`). -/
inductive JsError where
  | axiosErr (payload : Option String) (desc : String)
  | errorObj (msg : String)
deriving DecidableEq, Repr

/-- One HTTP call issued through axios, with its URL and request body. -/
inductive HttpCall where
  | get (url : String)
  | post (url : String) (body : CreateWebhookRequest)
  | put (url : String) (body : Webhook)
  | delete (url : String)
deriving DecidableEq, Repr

/-- A call is a write when it is anything but a GET. -/
def HttpCall.isWrite : HttpCall → Bool
  | .get _ => false
  | _ => true

/-- The HTTP transport collaborator (axios), one typed endpoint per
method/result shape used by `index.ts`; a call either resolves with data or
rejects with a thrown `JsError`. -/
structure Transport where
  getList : String → Except JsError (List Webhook)
  getOne : String → Except JsError Webhook
  post : String → CreateWebhookRequest → Except JsError Webhook
  put : String → Webhook → Except JsError Webhook
  del : String → Except JsError Unit

/-- Outcome of one operation: the resolved value or the thrown error's
message, plus the ordered trace of HTTP calls the operation issued. -/
structure OpResult (α : Type) where
  outcome : Except String α
  calls : List HttpCall

/-- Base URL constant `API_URL_V0` of `index.ts`. -/
def API_URL_V0 : String := "https://api.helius.xyz/v0"

/-- Base URL constant `API_URL_V1` of `index.ts` (unused there as well). -/
def API_URL_V1 : String := "https://api.heliuys.xyz/v1"

/-- URL of the webhook collection endpoint. -/
def webhooksUrl (apiKey : String) : String :=
  API_URL_V0 ++ "/webhooks?api-key=" ++ apiKey

/-- URL of a single webhook's endpoint. -/
def webhookIdUrl (apiKey webhookID : String) : String :=
  API_URL_V0 ++ "/webhooks/" ++ webhookID ++ "?api-key=" ++ apiKey

/-- Text of `err.response?.data.error` when interpolated into a template
literal: the payload text when present, `"undefined"` otherwise. -/
def payloadText : Option String → String
  | some x => x
  | none => "undefined"

/-- The uniform `catch` block of every operation: when
`axios.isAxiosError(err)` holds, interpolate `err.response?.data.error`;
otherwise interpolate the thrown value itself (a plain `Error` converts to
`"Error: " ++ msg`). `msgStart` is the operation's literal message start
such as `"error calling getWebhooks: "`. -/
def catchWrap (msgStart : String) : JsError → String
  | .axiosErr payload _ => msgStart ++ payloadText payload
  | .errorObj msg => msgStart ++ ("Error: " ++ msg)

/-- Embedding of `getAllWebhooks` from `index.ts`: GET the collection, return the data,
wrap any failure with `"error calling getWebhooks: "`. -/
def getAllWebhooks (t : Transport) (apiKey : String) : OpResult (List Webhook) :=
  let url := webhooksUrl apiKey
  match t.getList url with
  | .ok data => ⟨.ok data, [.get url]⟩
  | .error err => ⟨.error (catchWrap "error calling getWebhooks: " err), [.get url]⟩

/-- Embedding of `getWebhookByID` from `index.ts`: GET one webhook, return the data, wrap
any failure with `"error during getWebhookByID: "`. -/
def getWebhookByID (t : Transport) (apiKey webhookID : String) : OpResult Webhook :=
  let url := webhookIdUrl apiKey webhookID
  match t.getOne url with
  | .ok data => ⟨.ok data, [.get url]⟩
  | .error err => ⟨.error (catchWrap "error during getWebhookByID: " err), [.get url]⟩

/-- Embedding of `createWebhook` from `index.ts`: POST the caller's request object (the
spread `{...createWebhookRequest}` is a shallow copy, hence the same
value), wrap any failure with `"error during createWebhook: "`. -/
def createWebhook (t : Transport) (apiKey : String)
    (createWebhookRequest : CreateWebhookRequest) : OpResult Webhook :=
  let url := webhooksUrl apiKey
  match t.post url createWebhookRequest with
  | .ok data => ⟨.ok data, [.post url createWebhookRequest]⟩
  | .error err => ⟨.error (catchWrap "error during createWebhook: " err), [.post url createWebhookRequest]⟩

/-- Embedding of `deleteWebhook` from `index.ts`: DELETE the webhook, resolve with `true`,
wrap any failure with `"error during deleteWebhook: "`. -/
def deleteWebhook (t : Transport) (apiKey webhookID : String) : OpResult Bool :=
  let url := webhookIdUrl apiKey webhookID
  match t.del url with
  | .ok _ => ⟨.ok true, [.delete url]⟩
  | .error err => ⟨.error (catchWrap "error during deleteWebhook: " err), [.delete url]⟩

/-- The object spread `{ ...webhook, ...editWebhookRequest }` of
`editWebhook`: every field present on the request overwrites the fetched
value, absent fields keep the fetched value. -/
def mergeWebhook (webhook : Webhook) (r : EditWebhookRequest) : Webhook :=
  { webhookID := webhook.webhookID
    webhookURL := r.webhookURL.getD webhook.webhookURL
    webhookType := r.webhookType.getD webhook.webhookType
    transactionTypes := r.transactionTypes.getD webhook.transactionTypes
    accountAddresses := r.accountAddresses.getD webhook.accountAddresses
    authHeader := r.authHeader.getD webhook.authHeader
    addressConfig := r.addressConfig.getD webhook.addressConfig }

/-- Embedding of `editWebhook` from `index.ts`: fetch the current webhook through
`getWebhookByID` (whose wrapped failure is rethrown as a plain `Error` and
re-wrapped here), PUT the spread-merged object, wrap any failure with
`"error during editWebhook: "`. -/
def editWebhook (t : Transport) (apiKey webhookID : String)
    (editWebhookRequest : EditWebhookRequest) : OpResult Webhook :=
  match getWebhookByID t apiKey webhookID with
  | ⟨.error msg, calls⟩ =>
      ⟨.error (catchWrap "error during editWebhook: " (.errorObj msg)), calls⟩
  | ⟨.ok webhook, calls⟩ =>
      let url := webhookIdUrl apiKey webhookID
      let body := mergeWebhook webhook editWebhookRequest
      match t.put url body with
      | .ok data => ⟨.ok data, calls ++ [.put url body]⟩
      | .error err => ⟨.error (catchWrap "error during editWebhook: " err), calls ++ [.put url body]⟩

/-- The fixed capacity-cap message of `appendAddressesToWebhook`. -/
def capacityMsg : String := "a single webhook cannot contain more than 10,000 addresses"

/-- Embedding of `appendAddressesToWebhook` from `index.ts`: fetch the current webhook
through `getWebhookByID`, concatenate the new addresses onto the existing
list, throw the capacity error when the result exceeds 10000 entries
(caught by the operation's own `catch` block, hence re-wrapped), otherwise
PUT the updated webhook; any failure is wrapped with
`"error during appendAddressesToWebhook: "`. -/
def appendAddressesToWebhook (t : Transport) (apiKey webhookID : String)
    (newAccountAddresses : List String) : OpResult Webhook :=
  match getWebhookByID t apiKey webhookID with
  | ⟨.error msg, calls⟩ =>
      ⟨.error (catchWrap "error during appendAddressesToWebhook: " (.errorObj msg)), calls⟩
  | ⟨.ok webhook, calls⟩ =>
      let accountAddresses := webhook.accountAddresses ++ newAccountAddresses
      let webhook2 := { webhook with accountAddresses := accountAddresses }
      if accountAddresses.length > 10000 then
        ⟨.error (catchWrap "error during appendAddressesToWebhook: " (.errorObj capacityMsg)), calls⟩
      else
        let url := webhookIdUrl apiKey webhookID
        match t.put url webhook2 with
        | .ok data => ⟨.ok data, calls ++ [.put url webhook2]⟩
        | .error err => ⟨.error (catchWrap "error during appendAddressesToWebhook: " err), calls ++ [.put url webhook2]⟩

/-- Substring relation on strings, used to state that an error message
carries an operation name or a cause text. -/
def containsStr (msg sub : String) : Prop :=
  ∃ a b, msg = (a ++ sub) ++ b

/-- Transport whose every endpoint rejects with the same thrown value. -/
def failT (e : JsError) : Transport :=
  { getList := fun _ => .error e
    getOne := fun _ => .error e
    post := fun _ _ => .error e
    put := fun _ _ => .error e
    del := fun _ => .error e }

/-- Transport over a single backend webhook `w`: reads resolve to `w`, a
PUT echoes its body back, DELETE resolves. -/
def okT (w : Webhook) : Transport :=
  { getList := fun _ => .ok [w]
    getOne := fun _ => .ok w
    post := fun _ _ => .ok w
    put := fun _ b => .ok b
    del := fun _ => .ok () }

/-- A concrete webhook used by the witnesses. -/
def wTest : Webhook :=
  { webhookID := "whk-1"
    webhookURL := "https://example.com/hook"
    webhookType := "enhanced"
    transactionTypes := ["TRANSFER"]
    accountAddresses := ["addr1", "addr2"]
    authHeader := none
    addressConfig := "default" }

/-- A concrete create request used by the witnesses. -/
def cTest : CreateWebhookRequest :=
  { webhookURL := "https://example.com/hook"
    webhookType := "raw"
    transactionTypes := ["ANY"]
    accountAddresses := ["addr1"]
    authHeader := none
    addressConfig := "default" }

/-- A concrete edit request touching only the delivery URL. -/
def rTest : EditWebhookRequest :=
  { webhookURL := some "https://example.org/new"
    webhookType := none
    transactionTypes := none
    accountAddresses := none
    authHeader := none
    addressConfig := none }

/-- A webhook holding 9999 addresses, one below the cap. -/
def wBig : Webhook := { wTest with accountAddresses := List.replicate 9999 "a" }

/-- A webhook holding exactly 10000 addresses, at the cap. -/
def wFull : Webhook := { wTest with accountAddresses := List.replicate 10000 "a" }

/-- Any string is a substring of itself. -/
theorem containsStr_refl (s : String) : containsStr s s :=
  ⟨"", "", by rw [String.append_empty, String.empty_append]⟩

/-- Substring containment survives extending the string on the left. -/
theorem containsStr_append_left (p : String) {s sub : String}
    (h : containsStr s sub) : containsStr (p ++ s) sub := by
  obtain ⟨a, b, rfl⟩ := h
  exact ⟨p ++ a, b, by
    rw [String.append_assoc p a sub, String.append_assoc p (a ++ sub) b]⟩

/-- Substring containment survives extending the string on the right. -/
theorem containsStr_append_right {s sub : String} (q : String)
    (h : containsStr s sub) : containsStr (s ++ q) sub := by
  obtain ⟨a, b, rfl⟩ := h
  exact ⟨a, b ++ q, String.append_assoc (a ++ sub) b q⟩

/-- Substring containment on strings coincides with the infix relation on
their character lists, which is decidable on concrete inputs. -/
theorem containsStr_via_data (msg sub : String) :
    containsStr msg sub ↔ sub.data <:+: msg.data := by
  constructor
  · rintro ⟨a, b, rfl⟩
    exact ⟨a.data, b.data, by simp⟩
  · rintro ⟨s, u, h⟩
    refine ⟨⟨s⟩, ⟨u⟩, ?_⟩
    have hdata : msg.data = ((⟨s⟩ ++ sub) ++ (⟨u⟩ : String)).data := by
      simp [← h]
    cases msg
    exact congrArg String.mk hdata

/-- Whatever thrown value the catch block wraps, the wrapped message keeps
every substring of the operation's message start. -/
theorem containsStr_catchWrap (msgStart : String) (e : JsError) {sub : String}
    (h : containsStr msgStart sub) : containsStr (catchWrap msgStart e) sub := by
  cases e with
  | axiosErr p d => exact containsStr_append_right _ h
  | errorObj m => exact containsStr_append_right _ h

/-- Behavior of `appendAddressesToWebhook` when the fetch resolves and the
concatenated list fits the cap: the trace is the fetch followed by one PUT
whose body is the fetched webhook with the concatenated address list, and a
successful PUT's response is returned. -/
theorem append_within_cap_behavior (t : Transport) (k id : String) (W : Webhook)
    (N : List String) (h : t.getOne (webhookIdUrl k id) = .ok W)
    (hlen : W.accountAddresses.length + N.length ≤ 10000) :
    (appendAddressesToWebhook t k id N).calls
      = [.get (webhookIdUrl k id),
         .put (webhookIdUrl k id) { W with accountAddresses := W.accountAddresses ++ N }]
    ∧ (∀ D, t.put (webhookIdUrl k id) { W with accountAddresses := W.accountAddresses ++ N } = .ok D →
        (appendAddressesToWebhook t k id N).outcome = .ok D) := by
  have hc : ¬ ((W.accountAddresses ++ N).length > 10000) := by
    rw [List.length_append]; omega
  constructor
  · simp only [appendAddressesToWebhook, getWebhookByID, h, if_neg hc]
    cases hput : t.put (webhookIdUrl k id) { W with accountAddresses := W.accountAddresses ++ N } with
    | ok d => simp [hput]
    | error e => simp [hput]
  · intro D hput
    simp only [appendAddressesToWebhook, getWebhookByID, h, if_neg hc, hput]

/-- Behavior of `appendAddressesToWebhook` when the fetch resolves and the
concatenated list exceeds the cap: the outcome is the re-wrapped capacity
error and the trace consists of the fetch alone. -/
theorem append_over_cap_behavior (t : Transport) (k id : String) (W : Webhook)
    (N : List String) (h : t.getOne (webhookIdUrl k id) = .ok W)
    (hlen : W.accountAddresses.length + N.length > 10000) :
    (appendAddressesToWebhook t k id N).outcome
      = .error ("error during appendAddressesToWebhook: " ++ ("Error: " ++ capacityMsg))
    ∧ (appendAddressesToWebhook t k id N).calls = [.get (webhookIdUrl k id)] := by
  have hc : (W.accountAddresses ++ N).length > 10000 := by
    rw [List.length_append]; omega
  constructor
  · simp only [appendAddressesToWebhook, getWebhookByID, h, if_pos hc]
    rfl
  · simp only [appendAddressesToWebhook, getWebhookByID, h, if_pos hc]

/-- C1: when the fetch for a webhook id resolves to a webhook whose existing
address list is `E` and `E.length + N.length ≤ 10000`,
`appendAddressesToWebhook` issues exactly one write: a PUT whose body's
address list equals `E ++ N` in order, with no deduplication (an address in
both `E` and `N` appears twice, as list concatenation keeps duplicates); in
particular a total of exactly 10000 addresses passes validation and the
write is issued. -/
theorem append_within_cap_single_write (t : Transport) (k id : String) (W : Webhook)
    (N : List String) (h : t.getOne (webhookIdUrl k id) = .ok W)
    (hlen : W.accountAddresses.length + N.length ≤ 10000) :
    (appendAddressesToWebhook t k id N).calls.filter HttpCall.isWrite
      = [.put (webhookIdUrl k id) { W with accountAddresses := W.accountAddresses ++ N }] := by
  rw [(append_within_cap_behavior t k id W N h hlen).1]
  rfl

/-- C1 witness: a webhook holding 9999 addresses extended by one more, for a
total of exactly 10000, passes validation and the single PUT carries the
concatenated list. -/
theorem append_within_cap_single_write_witness :
    ((okT wBig).getOne (webhookIdUrl "key" "whk-1") = .ok wBig
      ∧ wBig.accountAddresses.length + ["b"].length ≤ 10000)
    ∧ (appendAddressesToWebhook (okT wBig) "key" "whk-1" ["b"]).calls.filter HttpCall.isWrite
      = [.put (webhookIdUrl "key" "whk-1")
            { wBig with accountAddresses := wBig.accountAddresses ++ ["b"] }] := by
  have hlen : wBig.accountAddresses.length + (["b"] : List String).length ≤ 10000 := by
    simp only [wBig, wTest, List.length_replicate, List.length_singleton]
    omega
  exact ⟨⟨rfl, hlen⟩,
    append_within_cap_single_write (okT wBig) "key" "whk-1" wBig ["b"] rfl hlen⟩

/-- C2: when the fetch resolves to an existing list `E` with
`E.length + N.length > 10000`, `appendAddressesToWebhook` issues no write
request and fails with an error carrying the capacity message. -/
theorem append_over_cap_no_write (t : Transport) (k id : String) (W : Webhook)
    (N : List String) (h : t.getOne (webhookIdUrl k id) = .ok W)
    (hlen : W.accountAddresses.length + N.length > 10000) :
    (appendAddressesToWebhook t k id N).calls.filter HttpCall.isWrite = []
    ∧ ∃ msg, (appendAddressesToWebhook t k id N).outcome = .error msg
        ∧ containsStr msg capacityMsg := by
  obtain ⟨hout, hcalls⟩ := append_over_cap_behavior t k id W N h hlen
  refine ⟨by rw [hcalls]; rfl, _, hout, ?_⟩
  exact containsStr_append_left _
    (containsStr_append_left "Error: " (containsStr_refl capacityMsg))

/-- C2 witness: a webhook already at the 10000-address cap extended by one
more address yields no write and the capacity error. -/
theorem append_over_cap_no_write_witness :
    ((okT wFull).getOne (webhookIdUrl "key" "whk-1") = .ok wFull
      ∧ wFull.accountAddresses.length + ["b"].length > 10000)
    ∧ ((appendAddressesToWebhook (okT wFull) "key" "whk-1" ["b"]).calls.filter HttpCall.isWrite = []
      ∧ ∃ msg, (appendAddressesToWebhook (okT wFull) "key" "whk-1" ["b"]).outcome = .error msg
          ∧ containsStr msg capacityMsg) := by
  have hlen : wFull.accountAddresses.length + (["b"] : List String).length > 10000 := by
    simp only [wFull, wTest, List.length_replicate, List.length_singleton]
    omega
  exact ⟨⟨rfl, hlen⟩,
    append_over_cap_no_write (okT wFull) "key" "whk-1" wFull ["b"] rfl hlen⟩

/-- C3: when the fetch resolves to webhook `W`, `editWebhook` sends as the
write body the shallow merge of `W` and the partial request: the one write
issued is a PUT of the complete merged object, every field present on the
request takes the request's value, every field absent from the request
keeps the fetched value, and the identifier stays the fetched one. -/
theorem edit_sends_shallow_merge (t : Transport) (k id : String) (W : Webhook)
    (r : EditWebhookRequest) (h : t.getOne (webhookIdUrl k id) = .ok W) :
    (editWebhook t k id r).calls
      = [.get (webhookIdUrl k id), .put (webhookIdUrl k id) (mergeWebhook W r)]
    ∧ (mergeWebhook W r).webhookID = W.webhookID
    ∧ (∀ v, r.webhookURL = some v → (mergeWebhook W r).webhookURL = v)
    ∧ (r.webhookURL = none → (mergeWebhook W r).webhookURL = W.webhookURL)
    ∧ (∀ v, r.webhookType = some v → (mergeWebhook W r).webhookType = v)
    ∧ (r.webhookType = none → (mergeWebhook W r).webhookType = W.webhookType)
    ∧ (∀ v, r.transactionTypes = some v → (mergeWebhook W r).transactionTypes = v)
    ∧ (r.transactionTypes = none → (mergeWebhook W r).transactionTypes = W.transactionTypes)
    ∧ (∀ v, r.accountAddresses = some v → (mergeWebhook W r).accountAddresses = v)
    ∧ (r.accountAddresses = none → (mergeWebhook W r).accountAddresses = W.accountAddresses)
    ∧ (∀ v, r.authHeader = some v → (mergeWebhook W r).authHeader = v)
    ∧ (r.authHeader = none → (mergeWebhook W r).authHeader = W.authHeader)
    ∧ (∀ v, r.addressConfig = some v → (mergeWebhook W r).addressConfig = v)
    ∧ (r.addressConfig = none → (mergeWebhook W r).addressConfig = W.addressConfig) := by
  refine ⟨?_, rfl, ?_, ?_, ?_, ?_, ?_, ?_, ?_, ?_, ?_, ?_, ?_, ?_⟩
  · simp only [editWebhook, getWebhookByID, h]
    cases hput : t.put (webhookIdUrl k id) (mergeWebhook W r) with
    | ok d => simp [hput]
    | error e => simp [hput]
  all_goals first
    | (intro v hv; simp [mergeWebhook, hv])
    | (intro hv; simp [mergeWebhook, hv])

/-- C3 witness: editing the test webhook with a request touching only the
delivery URL sends the full merged object whose URL is the new one and
whose remaining fields are the fetched ones. -/
theorem edit_sends_shallow_merge_witness :
    ((okT wTest).getOne (webhookIdUrl "key" "whk-1") = .ok wTest)
    ∧ (editWebhook (okT wTest) "key" "whk-1" rTest).calls
      = [.get (webhookIdUrl "key" "whk-1"),
         .put (webhookIdUrl "key" "whk-1") (mergeWebhook wTest rTest)] :=
  ⟨rfl, (edit_sends_shallow_merge (okT wTest) "key" "whk-1" wTest rTest rfl).1⟩

/-- Wrapped outcome of `getAllWebhooks` when its GET rejects. -/
theorem getAllWebhooks_error (t : Transport) (k : String) (err : JsError)
    (h : t.getList (webhooksUrl k) = .error err) :
    (getAllWebhooks t k).outcome = .error (catchWrap "error calling getWebhooks: " err) := by
  simp only [getAllWebhooks, h]

/-- Wrapped outcome of `getWebhookByID` when its GET rejects. -/
theorem getWebhookByID_error (t : Transport) (k id : String) (err : JsError)
    (h : t.getOne (webhookIdUrl k id) = .error err) :
    (getWebhookByID t k id).outcome = .error (catchWrap "error during getWebhookByID: " err) := by
  simp only [getWebhookByID, h]

/-- Wrapped outcome of `createWebhook` when its POST rejects. -/
theorem createWebhook_error (t : Transport) (k : String) (creq : CreateWebhookRequest)
    (err : JsError) (h : t.post (webhooksUrl k) creq = .error err) :
    (createWebhook t k creq).outcome = .error (catchWrap "error during createWebhook: " err) := by
  simp only [createWebhook, h]

/-- Wrapped outcome of `deleteWebhook` when its DELETE rejects. -/
theorem deleteWebhook_error (t : Transport) (k id : String) (err : JsError)
    (h : t.del (webhookIdUrl k id) = .error err) :
    (deleteWebhook t k id).outcome = .error (catchWrap "error during deleteWebhook: " err) := by
  simp only [deleteWebhook, h]

/-- Wrapped outcome of `editWebhook` when the inner fetch rejects: the
already-wrapped fetch error is rethrown as a plain `Error` and wrapped
again. -/
theorem editWebhook_fetch_error (t : Transport) (k id : String)
    (r : EditWebhookRequest) (err : JsError)
    (h : t.getOne (webhookIdUrl k id) = .error err) :
    (editWebhook t k id r).outcome
      = .error (catchWrap "error during editWebhook: "
          (.errorObj (catchWrap "error during getWebhookByID: " err))) := by
  simp only [editWebhook, getWebhookByID, h]

/-- Wrapped outcome of `editWebhook` when the fetch resolves and the PUT of
the merged body rejects. -/
theorem editWebhook_put_error (t : Transport) (k id : String) (W : Webhook)
    (r : EditWebhookRequest) (err : JsError)
    (hget : t.getOne (webhookIdUrl k id) = .ok W)
    (hput : t.put (webhookIdUrl k id) (mergeWebhook W r) = .error err) :
    (editWebhook t k id r).outcome = .error (catchWrap "error during editWebhook: " err) := by
  simp only [editWebhook, getWebhookByID, hget, hput]

/-- Wrapped outcome of `appendAddressesToWebhook` when the inner fetch
rejects. -/
theorem appendAddresses_fetch_error (t : Transport) (k id : String)
    (N : List String) (err : JsError)
    (h : t.getOne (webhookIdUrl k id) = .error err) :
    (appendAddressesToWebhook t k id N).outcome
      = .error (catchWrap "error during appendAddressesToWebhook: "
          (.errorObj (catchWrap "error during getWebhookByID: " err))) := by
  simp only [appendAddressesToWebhook, getWebhookByID, h]

/-- Wrapped outcome of `appendAddressesToWebhook` when the fetch resolves,
the concatenated list fits the cap and the PUT rejects. -/
theorem appendAddresses_put_error (t : Transport) (k id : String) (W : Webhook)
    (N : List String) (err : JsError)
    (hget : t.getOne (webhookIdUrl k id) = .ok W)
    (hlen : W.accountAddresses.length + N.length ≤ 10000)
    (hput : t.put (webhookIdUrl k id) { W with accountAddresses := W.accountAddresses ++ N }
      = .error err) :
    (appendAddressesToWebhook t k id N).outcome
      = .error (catchWrap "error during appendAddressesToWebhook: " err) := by
  have hc : ¬ ((W.accountAddresses ++ N).length > 10000) := by
    rw [List.length_append]; omega
  simp only [appendAddressesToWebhook, getWebhookByID, hget, if_neg hc, hput]

/-- C4: for each of the six operations and any transport, when the backend
call it issues rejects with an axios error whose structured payload is `X`
(for the two-step operations: at the fetch, or at the write reached with
that fetch's result), the operation fails with an error whose message
contains both the operation's name (`getWebhooks`, `getWebhookByID`,
`createWebhook`, `deleteWebhook`, `editWebhook`,
`appendAddressesToWebhook` respectively) and the payload text `X`. -/
theorem ops_wrap_server_error (t : Transport) (X d k id : String)
    (creq : CreateWebhookRequest) (ereq : EditWebhookRequest) (N : List String) :
    (t.getList (webhooksUrl k) = .error (.axiosErr (some X) d) →
      ∃ m, (getAllWebhooks t k).outcome = .error m
        ∧ containsStr m "getWebhooks" ∧ containsStr m X)
    ∧ (t.getOne (webhookIdUrl k id) = .error (.axiosErr (some X) d) →
      ∃ m, (getWebhookByID t k id).outcome = .error m
        ∧ containsStr m "getWebhookByID" ∧ containsStr m X)
    ∧ (t.post (webhooksUrl k) creq = .error (.axiosErr (some X) d) →
      ∃ m, (createWebhook t k creq).outcome = .error m
        ∧ containsStr m "createWebhook" ∧ containsStr m X)
    ∧ (t.del (webhookIdUrl k id) = .error (.axiosErr (some X) d) →
      ∃ m, (deleteWebhook t k id).outcome = .error m
        ∧ containsStr m "deleteWebhook" ∧ containsStr m X)
    ∧ ((t.getOne (webhookIdUrl k id) = .error (.axiosErr (some X) d)
        ∨ ∃ W, t.getOne (webhookIdUrl k id) = .ok W
            ∧ t.put (webhookIdUrl k id) (mergeWebhook W ereq) = .error (.axiosErr (some X) d)) →
      ∃ m, (editWebhook t k id ereq).outcome = .error m
        ∧ containsStr m "editWebhook" ∧ containsStr m X)
    ∧ ((t.getOne (webhookIdUrl k id) = .error (.axiosErr (some X) d)
        ∨ ∃ W, t.getOne (webhookIdUrl k id) = .ok W
            ∧ W.accountAddresses.length + N.length ≤ 10000
            ∧ t.put (webhookIdUrl k id) { W with accountAddresses := W.accountAddresses ++ N }
              = .error (.axiosErr (some X) d)) →
      ∃ m, (appendAddressesToWebhook t k id N).outcome = .error m
        ∧ containsStr m "appendAddressesToWebhook" ∧ containsStr m X) := by
  refine ⟨fun h => ⟨_, getAllWebhooks_error t k _ h, ?_, ?_⟩,
    fun h => ⟨_, getWebhookByID_error t k id _ h, ?_, ?_⟩,
    fun h => ⟨_, createWebhook_error t k creq _ h, ?_, ?_⟩,
    fun h => ⟨_, deleteWebhook_error t k id _ h, ?_, ?_⟩,
    fun h => ?_, fun h => ?_⟩
  · exact containsStr_append_right _ ⟨"error calling ", ": ", rfl⟩
  · exact containsStr_append_left "error calling getWebhooks: " (containsStr_refl X)
  · exact containsStr_append_right _ ⟨"error during ", ": ", rfl⟩
  · exact containsStr_append_left "error during getWebhookByID: " (containsStr_refl X)
  · exact containsStr_append_right _ ⟨"error during ", ": ", rfl⟩
  · exact containsStr_append_left "error during createWebhook: " (containsStr_refl X)
  · exact containsStr_append_right _ ⟨"error during ", ": ", rfl⟩
  · exact containsStr_append_left "error during deleteWebhook: " (containsStr_refl X)
  · rcases h with h | ⟨W, hget, hput⟩
    · refine ⟨_, editWebhook_fetch_error t k id ereq _ h, ?_, ?_⟩
      · exact containsStr_append_right _ ⟨"error during ", ": ", rfl⟩
      · exact containsStr_append_left "error during editWebhook: "
          (containsStr_append_left "Error: "
            (containsStr_append_left "error during getWebhookByID: " (containsStr_refl X)))
    · refine ⟨_, editWebhook_put_error t k id W ereq _ hget hput, ?_, ?_⟩
      · exact containsStr_append_right _ ⟨"error during ", ": ", rfl⟩
      · exact containsStr_append_left "error during editWebhook: " (containsStr_refl X)
  · rcases h with h | ⟨W, hget, hlen, hput⟩
    · refine ⟨_, appendAddresses_fetch_error t k id N _ h, ?_, ?_⟩
      · exact containsStr_append_right _ ⟨"error during ", ": ", rfl⟩
      · exact containsStr_append_left "error during appendAddressesToWebhook: "
          (containsStr_append_left "Error: "
            (containsStr_append_left "error during getWebhookByID: " (containsStr_refl X)))
    · refine ⟨_, appendAddresses_put_error t k id W N _ hget hlen hput, ?_, ?_⟩
      · exact containsStr_append_right _ ⟨"error during ", ": ", rfl⟩
      · exact containsStr_append_left "error during appendAddressesToWebhook: " (containsStr_refl X)

/-- C4 witness: with every endpoint rejecting with structured payload
`"boom"`, each of the six operations fails with a message carrying its name
and `"boom"`. -/
theorem ops_wrap_server_error_witness :
    (∃ m, (getAllWebhooks (failT (.axiosErr (some "boom") "d")) "key").outcome = .error m
        ∧ containsStr m "getWebhooks" ∧ containsStr m "boom")
    ∧ (∃ m, (getWebhookByID (failT (.axiosErr (some "boom") "d")) "key" "whk-1").outcome = .error m
        ∧ containsStr m "getWebhookByID" ∧ containsStr m "boom")
    ∧ (∃ m, (createWebhook (failT (.axiosErr (some "boom") "d")) "key" cTest).outcome = .error m
        ∧ containsStr m "createWebhook" ∧ containsStr m "boom")
    ∧ (∃ m, (deleteWebhook (failT (.axiosErr (some "boom") "d")) "key" "whk-1").outcome = .error m
        ∧ containsStr m "deleteWebhook" ∧ containsStr m "boom")
    ∧ (∃ m, (editWebhook (failT (.axiosErr (some "boom") "d")) "key" "whk-1" rTest).outcome = .error m
        ∧ containsStr m "editWebhook" ∧ containsStr m "boom")
    ∧ (∃ m, (appendAddressesToWebhook (failT (.axiosErr (some "boom") "d")) "key" "whk-1" ["b"]).outcome = .error m
        ∧ containsStr m "appendAddressesToWebhook" ∧ containsStr m "boom") := by
  obtain ⟨h1, h2, h3, h4, h5, h6⟩ :=
    ops_wrap_server_error (failT (.axiosErr (some "boom") "d")) "boom" "d" "key" "whk-1"
      cTest rTest ["b"]
  exact ⟨h1 rfl, h2 rfl, h3 rfl, h4 rfl, h5 (Or.inl rfl), h6 (Or.inl rfl)⟩

/-- C5 counterexample: an axios-level transport failure with no server
response (network unreachable), whose own description is
`"AxiosError: Network Error"`, is not a server-reported structured error,
yet the operation takes the axios branch and interpolates the missing
payload: the resulting message `"error calling getWebhooks: undefined"`
contains the operation name but not the underlying failure's own
description. -/
theorem transport_failure_description_cex :
    ∃ m, (getAllWebhooks (failT (.axiosErr none "AxiosError: Network Error")) "key").outcome
        = .error m
      ∧ containsStr m "getWebhooks"
      ∧ ¬ containsStr m "AxiosError: Network Error" := by
  refine ⟨_, rfl, ?_, ?_⟩
  · exact containsStr_append_right _ ⟨"error calling ", ": ", rfl⟩
  · rw [containsStr_via_data]
    decide

/-- C5 amended: for each of the six operations and any transport, a thrown
failure that is not an axios error — a plain `Error` value with message
`m0`, covering malformed responses and other unknown failures, whose own
description is `"Error: " ++ m0` — produces an error whose message contains
the operation name and that description (axios-classified transport
failures without a response instead interpolate the missing payload as
`"undefined"`, per the counterexample). -/
theorem ops_wrap_nonaxios_failure (t : Transport) (m0 k id : String)
    (creq : CreateWebhookRequest) (ereq : EditWebhookRequest) (N : List String) :
    (t.getList (webhooksUrl k) = .error (.errorObj m0) →
      ∃ m, (getAllWebhooks t k).outcome = .error m
        ∧ containsStr m "getWebhooks" ∧ containsStr m ("Error: " ++ m0))
    ∧ (t.getOne (webhookIdUrl k id) = .error (.errorObj m0) →
      ∃ m, (getWebhookByID t k id).outcome = .error m
        ∧ containsStr m "getWebhookByID" ∧ containsStr m ("Error: " ++ m0))
    ∧ (t.post (webhooksUrl k) creq = .error (.errorObj m0) →
      ∃ m, (createWebhook t k creq).outcome = .error m
        ∧ containsStr m "createWebhook" ∧ containsStr m ("Error: " ++ m0))
    ∧ (t.del (webhookIdUrl k id) = .error (.errorObj m0) →
      ∃ m, (deleteWebhook t k id).outcome = .error m
        ∧ containsStr m "deleteWebhook" ∧ containsStr m ("Error: " ++ m0))
    ∧ ((t.getOne (webhookIdUrl k id) = .error (.errorObj m0)
        ∨ ∃ W, t.getOne (webhookIdUrl k id) = .ok W
            ∧ t.put (webhookIdUrl k id) (mergeWebhook W ereq) = .error (.errorObj m0)) →
      ∃ m, (editWebhook t k id ereq).outcome = .error m
        ∧ containsStr m "editWebhook" ∧ containsStr m ("Error: " ++ m0))
    ∧ ((t.getOne (webhookIdUrl k id) = .error (.errorObj m0)
        ∨ ∃ W, t.getOne (webhookIdUrl k id) = .ok W
            ∧ W.accountAddresses.length + N.length ≤ 10000
            ∧ t.put (webhookIdUrl k id) { W with accountAddresses := W.accountAddresses ++ N }
              = .error (.errorObj m0)) →
      ∃ m, (appendAddressesToWebhook t k id N).outcome = .error m
        ∧ containsStr m "appendAddressesToWebhook" ∧ containsStr m ("Error: " ++ m0)) := by
  refine ⟨fun h => ⟨_, getAllWebhooks_error t k _ h, ?_, ?_⟩,
    fun h => ⟨_, getWebhookByID_error t k id _ h, ?_, ?_⟩,
    fun h => ⟨_, createWebhook_error t k creq _ h, ?_, ?_⟩,
    fun h => ⟨_, deleteWebhook_error t k id _ h, ?_, ?_⟩,
    fun h => ?_, fun h => ?_⟩
  · exact containsStr_append_right _ ⟨"error calling ", ": ", rfl⟩
  · exact containsStr_append_left "error calling getWebhooks: " (containsStr_refl _)
  · exact containsStr_append_right _ ⟨"error during ", ": ", rfl⟩
  · exact containsStr_append_left "error during getWebhookByID: " (containsStr_refl _)
  · exact containsStr_append_right _ ⟨"error during ", ": ", rfl⟩
  · exact containsStr_append_left "error during createWebhook: " (containsStr_refl _)
  · exact containsStr_append_right _ ⟨"error during ", ": ", rfl⟩
  · exact containsStr_append_left "error during deleteWebhook: " (containsStr_refl _)
  · rcases h with h | ⟨W, hget, hput⟩
    · refine ⟨_, editWebhook_fetch_error t k id ereq _ h, ?_, ?_⟩
      · exact containsStr_append_right _ ⟨"error during ", ": ", rfl⟩
      · exact containsStr_append_left "error during editWebhook: "
          (containsStr_append_left "Error: "
            (containsStr_append_left "error during getWebhookByID: " (containsStr_refl _)))
    · refine ⟨_, editWebhook_put_error t k id W ereq _ hget hput, ?_, ?_⟩
      · exact containsStr_append_right _ ⟨"error during ", ": ", rfl⟩
      · exact containsStr_append_left "error during editWebhook: " (containsStr_refl _)
  · rcases h with h | ⟨W, hget, hlen, hput⟩
    · refine ⟨_, appendAddresses_fetch_error t k id N _ h, ?_, ?_⟩
      · exact containsStr_append_right _ ⟨"error during ", ": ", rfl⟩
      · exact containsStr_append_left "error during appendAddressesToWebhook: "
          (containsStr_append_left "Error: "
            (containsStr_append_left "error during getWebhookByID: " (containsStr_refl _)))
    · refine ⟨_, appendAddresses_put_error t k id W N _ hget hlen hput, ?_, ?_⟩
      · exact containsStr_append_right _ ⟨"error during ", ": ", rfl⟩
      · exact containsStr_append_left "error during appendAddressesToWebhook: " (containsStr_refl _)

/-- C5 amended witness: with every endpoint throwing a plain `Error` of
message `"socket hang up"`, each operation's message carries its name and
the failure's description `"Error: socket hang up"`. -/
theorem ops_wrap_nonaxios_failure_witness :
    (∃ m, (getAllWebhooks (failT (.errorObj "socket hang up")) "key").outcome = .error m
        ∧ containsStr m "getWebhooks" ∧ containsStr m ("Error: " ++ "socket hang up"))
    ∧ (∃ m, (getWebhookByID (failT (.errorObj "socket hang up")) "key" "whk-1").outcome = .error m
        ∧ containsStr m "getWebhookByID" ∧ containsStr m ("Error: " ++ "socket hang up"))
    ∧ (∃ m, (createWebhook (failT (.errorObj "socket hang up")) "key" cTest).outcome = .error m
        ∧ containsStr m "createWebhook" ∧ containsStr m ("Error: " ++ "socket hang up"))
    ∧ (∃ m, (deleteWebhook (failT (.errorObj "socket hang up")) "key" "whk-1").outcome = .error m
        ∧ containsStr m "deleteWebhook" ∧ containsStr m ("Error: " ++ "socket hang up"))
    ∧ (∃ m, (editWebhook (failT (.errorObj "socket hang up")) "key" "whk-1" rTest).outcome = .error m
        ∧ containsStr m "editWebhook" ∧ containsStr m ("Error: " ++ "socket hang up"))
    ∧ (∃ m, (appendAddressesToWebhook (failT (.errorObj "socket hang up")) "key" "whk-1" ["b"]).outcome = .error m
        ∧ containsStr m "appendAddressesToWebhook" ∧ containsStr m ("Error: " ++ "socket hang up")) := by
  obtain ⟨h1, h2, h3, h4, h5, h6⟩ :=
    ops_wrap_nonaxios_failure (failT (.errorObj "socket hang up")) "socket hang up"
      "key" "whk-1" cTest rTest ["b"]
  exact ⟨h1 rfl, h2 rfl, h3 rfl, h4 rfl, h5 (Or.inl rfl), h6 (Or.inl rfl)⟩

/-- C6 counterexample: at a webhook already holding 10000 addresses, the
append of one more address fails with the capacity message, yet the
operation has attempted a network call — the fetch GET that precedes
validation — so its call trace is not empty. -/
theorem append_capacity_network_call_cex :
    (∃ m, (appendAddressesToWebhook (okT wFull) "key" "whk-1" ["b"]).outcome = .error m
        ∧ containsStr m capacityMsg)
    ∧ (appendAddressesToWebhook (okT wFull) "key" "whk-1" ["b"]).calls ≠ [] := by
  have hlen : wFull.accountAddresses.length + (["b"] : List String).length > 10000 := by
    simp only [wFull, wTest, List.length_replicate, List.length_singleton]
    omega
  obtain ⟨hout, hcalls⟩ :=
    append_over_cap_behavior (okT wFull) "key" "whk-1" wFull ["b"] rfl hlen
  refine ⟨⟨_, hout, ?_⟩, ?_⟩
  · exact containsStr_append_left _
      (containsStr_append_left "Error: " (containsStr_refl capacityMsg))
  · rw [hcalls]
    simp

/-- C6 amended: when `appendAddressesToWebhook` fails on the capacity cap,
no write call is attempted: the only network call of the operation is the
single fetch GET that precedes validation, and no PUT, POST or DELETE
appears in the trace. -/
theorem append_capacity_no_write (t : Transport) (k id : String) (W : Webhook)
    (N : List String) (h : t.getOne (webhookIdUrl k id) = .ok W)
    (hlen : W.accountAddresses.length + N.length > 10000) :
    (appendAddressesToWebhook t k id N).calls = [.get (webhookIdUrl k id)]
    ∧ (appendAddressesToWebhook t k id N).calls.filter HttpCall.isWrite = [] := by
  obtain ⟨hout, hcalls⟩ := append_over_cap_behavior t k id W N h hlen
  exact ⟨hcalls, by rw [hcalls]; rfl⟩

/-- C6 amended witness: at the concrete over-cap webhook the trace is the
single fetch GET with no write. -/
theorem append_capacity_no_write_witness :
    ((okT wFull).getOne (webhookIdUrl "key" "whk-1") = .ok wFull
      ∧ wFull.accountAddresses.length + ["b"].length > 10000)
    ∧ ((appendAddressesToWebhook (okT wFull) "key" "whk-1" ["b"]).calls
        = [.get (webhookIdUrl "key" "whk-1")]
      ∧ (appendAddressesToWebhook (okT wFull) "key" "whk-1" ["b"]).calls.filter HttpCall.isWrite
        = []) := by
  have hlen : wFull.accountAddresses.length + (["b"] : List String).length > 10000 := by
    simp only [wFull, wTest, List.length_replicate, List.length_singleton]
    omega
  exact ⟨⟨rfl, hlen⟩,
    append_capacity_no_write (okT wFull) "key" "whk-1" wFull ["b"] rfl hlen⟩

/-- C7: `deleteWebhook` resolves to `true` whenever the backend's DELETE
resolves, never resolves to `false` under any transport, and every rejected
DELETE surfaces as a thrown error whose message carries the operation name
`deleteWebhook`, not as a boolean result. -/
theorem delete_true_or_error (t : Transport) (k id : String) :
    (deleteWebhook t k id).outcome ≠ .ok false
    ∧ (∀ u, t.del (webhookIdUrl k id) = .ok u →
        (deleteWebhook t k id).outcome = .ok true)
    ∧ (∀ e, t.del (webhookIdUrl k id) = .error e →
        ∃ m, (deleteWebhook t k id).outcome = .error m ∧ containsStr m "deleteWebhook") := by
  cases hdel : t.del (webhookIdUrl k id) with
  | ok u =>
    refine ⟨?_, ?_, ?_⟩
    · simp [deleteWebhook, hdel]
    · intro u2 h2
      simp [deleteWebhook, hdel]
    · intro e he
      exact absurd he (by simp)
  | error e =>
    refine ⟨?_, ?_, ?_⟩
    · simp [deleteWebhook, hdel]
    · intro u2 h2
      exact absurd h2 (by simp)
    · intro e2 he
      simp only [deleteWebhook, hdel]
      exact ⟨_, rfl, containsStr_catchWrap _ e ⟨"error during ", ": ", rfl⟩⟩

/-- C7 witness: against a backend whose DELETE resolves, the concrete call
resolves to `true`. -/
theorem delete_true_or_error_witness :
    (deleteWebhook (okT wTest) "key" "whk-1").outcome = .ok true :=
  (delete_true_or_error (okT wTest) "key" "whk-1").2.1 () rfl

/-- C8: within the capacity cap, the body `appendAddressesToWebhook` PUTs
is the whole fetched webhook with only the address list substituted: the
single write's body keeps every other field of the fetched webhook
unchanged and carries the concatenated address list. -/
theorem append_preserves_other_fields (t : Transport) (k id : String) (W : Webhook)
    (N : List String) (h : t.getOne (webhookIdUrl k id) = .ok W)
    (hlen : W.accountAddresses.length + N.length ≤ 10000) :
    ∃ body, (appendAddressesToWebhook t k id N).calls.filter HttpCall.isWrite
        = [.put (webhookIdUrl k id) body]
      ∧ body.webhookID = W.webhookID
      ∧ body.webhookURL = W.webhookURL
      ∧ body.webhookType = W.webhookType
      ∧ body.transactionTypes = W.transactionTypes
      ∧ body.authHeader = W.authHeader
      ∧ body.addressConfig = W.addressConfig
      ∧ body.accountAddresses = W.accountAddresses ++ N := by
  refine ⟨{ W with accountAddresses := W.accountAddresses ++ N },
    ?_, rfl, rfl, rfl, rfl, rfl, rfl, rfl⟩
  rw [(append_within_cap_behavior t k id W N h hlen).1]
  rfl

/-- C8 witness: appending one address to the concrete two-address webhook
PUTs a body whose other fields equal the fetched ones. -/
theorem append_preserves_other_fields_witness :
    ((okT wTest).getOne (webhookIdUrl "key" "whk-1") = .ok wTest
      ∧ wTest.accountAddresses.length + ["addr3"].length ≤ 10000)
    ∧ ∃ body, (appendAddressesToWebhook (okT wTest) "key" "whk-1" ["addr3"]).calls.filter HttpCall.isWrite
        = [.put (webhookIdUrl "key" "whk-1") body]
      ∧ body.webhookID = wTest.webhookID
      ∧ body.webhookURL = wTest.webhookURL
      ∧ body.webhookType = wTest.webhookType
      ∧ body.transactionTypes = wTest.transactionTypes
      ∧ body.authHeader = wTest.authHeader
      ∧ body.addressConfig = wTest.addressConfig
      ∧ body.accountAddresses = wTest.accountAddresses ++ ["addr3"] :=
  ⟨⟨rfl, by decide⟩,
   append_preserves_other_fields (okT wTest) "key" "whk-1" wTest ["addr3"] rfl (by decide)⟩

/-- C9: the capacity failure that reaches the caller is the re-wrapped
form: its message contains the operation name `appendAddressesToWebhook` in
addition to the fixed capacity text, and is not the bare capacity message
alone. -/
theorem append_capacity_error_rewrapped (t : Transport) (k id : String) (W : Webhook)
    (N : List String) (h : t.getOne (webhookIdUrl k id) = .ok W)
    (hlen : W.accountAddresses.length + N.length > 10000) :
    ∃ m, (appendAddressesToWebhook t k id N).outcome = .error m
      ∧ containsStr m "appendAddressesToWebhook"
      ∧ containsStr m capacityMsg
      ∧ m ≠ capacityMsg := by
  refine ⟨_, (append_over_cap_behavior t k id W N h hlen).1, ?_, ?_, ?_⟩
  · exact containsStr_append_right _ ⟨"error during ", ": ", rfl⟩
  · exact containsStr_append_left _
      (containsStr_append_left "Error: " (containsStr_refl capacityMsg))
  · decide

/-- C9 witness: at the concrete over-cap webhook the caller receives the
re-wrapped capacity error. -/
theorem append_capacity_error_rewrapped_witness :
    ((okT wFull).getOne (webhookIdUrl "key" "whk-1") = .ok wFull
      ∧ wFull.accountAddresses.length + ["b"].length > 10000)
    ∧ ∃ m, (appendAddressesToWebhook (okT wFull) "key" "whk-1" ["b"]).outcome = .error m
      ∧ containsStr m "appendAddressesToWebhook"
      ∧ containsStr m capacityMsg
      ∧ m ≠ capacityMsg := by
  have hlen : wFull.accountAddresses.length + (["b"] : List String).length > 10000 := by
    simp only [wFull, wTest, List.length_replicate, List.length_singleton]
    omega
  exact ⟨⟨rfl, hlen⟩,
    append_capacity_error_rewrapped (okT wFull) "key" "whk-1" wFull ["b"] rfl hlen⟩

/-- C10: appending the empty list does not short-circuit: whenever the
fetch resolves to a webhook within the cap, the operation still issues the
write — a PUT whose body is the fetched webhook with its address list
unchanged — and returns the server's response to that PUT. -/
theorem append_empty_list_still_writes (t : Transport) (k id : String) (W : Webhook)
    (h : t.getOne (webhookIdUrl k id) = .ok W)
    (hlen : W.accountAddresses.length ≤ 10000) :
    (appendAddressesToWebhook t k id []).calls
      = [.get (webhookIdUrl k id), .put (webhookIdUrl k id) W]
    ∧ (∀ D, t.put (webhookIdUrl k id) W = .ok D →
        (appendAddressesToWebhook t k id []).outcome = .ok D) := by
  have hbody : ({ W with accountAddresses := W.accountAddresses ++ ([] : List String) } : Webhook)
      = W := by
    rw [List.append_nil]
  have hlen2 : W.accountAddresses.length + ([] : List String).length ≤ 10000 := by
    simpa using hlen
  obtain ⟨hcalls, hok⟩ := append_within_cap_behavior t k id W [] h hlen2
  rw [hbody] at hcalls hok
  exact ⟨hcalls, hok⟩

/-- C10 witness: appending the empty list to the concrete webhook still
issues the PUT of the unchanged webhook and returns the echoed response. -/
theorem append_empty_list_still_writes_witness :
    ((okT wTest).getOne (webhookIdUrl "key" "whk-1") = .ok wTest
      ∧ wTest.accountAddresses.length ≤ 10000)
    ∧ ((appendAddressesToWebhook (okT wTest) "key" "whk-1" []).calls
        = [.get (webhookIdUrl "key" "whk-1"), .put (webhookIdUrl "key" "whk-1") wTest]
      ∧ (appendAddressesToWebhook (okT wTest) "key" "whk-1" []).outcome = .ok wTest) :=
  ⟨⟨rfl, by decide⟩,
   (append_empty_list_still_writes (okT wTest) "key" "whk-1" wTest rfl (by decide)).1,
   (append_empty_list_still_writes (okT wTest) "key" "whk-1" wTest rfl (by decide)).2 wTest rfl⟩

end Helius
